import Mathlib

/-!
Shallow embedding of the CleanIT home-cleaning booking application
(`app.py`, `services.py`, `bookings.py`, `database.py`).

The SQLite tables become lists of row structures inside a `DB` state record;
SQL statements become list operations on those tables (`fetchone` is
`List.find?`, a `WHERE` clause is a `List.filter`, `UPDATE ... WHERE` is a
`List.map` guarded by the predicate, `INSERT` appends a row and bumps the
table's autoincrement counter).  Monetary values (SQLite `REAL`, Python
`float`) are modelled exactly as `Rat`; quantities and ids (Python `int`)
as `Int`.  Timestamp columns (`created_at`, `paid_at`) are omitted: no
modelled behaviour reads them.
-/

/-- Python's substring containment at one position: does `pat` start `cs`? -/
def subAt : List Char → List Char → Bool
  | [], _ => true
  | _ :: _, [] => false
  | p :: ps, c :: cs => p == c && subAt ps cs

/-- Does `pat` occur somewhere in the character list? -/
def hasSubList (pat : List Char) : List Char → Bool
  | [] => pat.isEmpty
  | c :: cs => subAt pat (c :: cs) || hasSubList pat cs

/-- Python's `pat in hay` on strings (substring containment). -/
def strContains (hay pat : String) : Bool :=
  hasSubList pat.toList hay.toList

/-- The whitespace characters stripped by Python's `str.strip()` (the ASCII
ones; the modelled forms contain no exotic Unicode whitespace). -/
def isSpaceChar (c : Char) : Bool :=
  c == ' ' || c == '\t' || c == '\n' || c == '\r' || c == '\x0b' || c == '\x0c'

/-- Python's `str.strip()`: drop whitespace from both ends. -/
def pyStrip (s : String) : String :=
  String.mk (((s.toList.dropWhile isSpaceChar).reverse.dropWhile
    isSpaceChar).reverse)

/-- A row of the `services` table (`app.py` schema: id, name, description,
base_price, image_url; nullable text columns kept as `Option String`). -/
structure ServiceRow where
  id : Int
  name : String
  description : Option String
  base_price : Rat
  image_url : Option String
deriving DecidableEq, Repr

/-- A row of the `service_pricing` table. -/
structure PricingRule where
  id : Int
  service_id : Int
  rule_type : String
  label : String
  price : Rat
  min_quantity : Int
  max_quantity : Int
deriving DecidableEq, Repr

/-- A row of the `bookings` table (timestamp column omitted). -/
structure BookingRow where
  id : Int
  service_id : Int
  pricing_id : Int
  customer_name : String
  customer_email : String
  customer_phone : String
  date : String
  bedroom_qty : Int
  bath_qty : Int
  hours : Int
  notes : String
  total_price : Rat
deriving DecidableEq, Repr

/-- A row of the `booking_options` table. -/
structure BookingOptionRow where
  id : Int
  booking_id : Int
  pricing_id : Int
  quantity : Int
deriving DecidableEq, Repr

/-- A row of the `payments` table (timestamp columns omitted; the text and
amount columns are always supplied by the modelled write paths, so they are
kept non-optional). -/
structure PaymentRow where
  id : Int
  booking_id : Int
  street_address : String
  city : String
  province : String
  region : String
  payment_method : String
  payment_status : String
  amount : Rat
deriving DecidableEq, Repr

/-- The persistent store: the five tables plus the autoincrement counters
of the tables the modelled operations insert into. -/
structure DB where
  services : List ServiceRow
  service_pricing : List PricingRule
  bookings : List BookingRow
  booking_options : List BookingOptionRow
  payments : List PaymentRow
  next_pricing_id : Int
  next_payment_id : Int
deriving DecidableEq, Repr

/-- The dict built by `services.py:get_service`: the service row plus its
pricing rules (`SELECT * FROM service_pricing WHERE service_id = ?`,
in table order). -/
structure Service where
  id : Int
  name : String
  description : Option String
  base_price : Rat
  image_url : Option String
  pricing : List PricingRule
deriving DecidableEq, Repr

/-- Function `services.py:get_service`: fetch the service row by id (or `None`),
then attach its pricing rules. -/
def get_service (db : DB) (service_id : Int) : Option Service :=
  match db.services.find? (fun s => s.id == service_id) with
  | none => none
  | some s =>
      some { id := s.id, name := s.name, description := s.description,
             base_price := s.base_price, image_url := s.image_url,
             pricing := db.service_pricing.filter (fun p => p.service_id == service_id) }

/-- Python's `pricing_id and p['id'] == pricing_id` (`app.py` line 162):
`None` and `0` are falsy, so no flat rule can match them. -/
def selectedMatch (pricing_id : Option Int) (rule_id : Int) : Bool :=
  match pricing_id with
  | none => false
  | some pid => pid != 0 && rule_id == pid

/-- One iteration of the rule loop in `app.py:calculate_price`
(the `for p in service['pricing']` body, lines 153–163). -/
def priceStep (bedroom_qty bath_qty hours : Int) (pricing_id : Option Int)
    (total_price : Rat) (p : PricingRule) : Rat :=
  if p.rule_type == "per_room" then
    let t1 := if strContains p.label "Bedroom" && bedroom_qty > 1 then
        total_price + p.price * ((bedroom_qty - 1 : Int) : Rat)
      else total_price
    if strContains p.label "Bathroom" && bath_qty > 1 then
      t1 + p.price * ((bath_qty - 1 : Int) : Rat)
    else t1
  else if p.rule_type == "hourly" && hours > 0 then
    total_price + p.price * ((hours : Int) : Rat)
  else if (p.rule_type == "flat_rate" || p.rule_type == "flat_tier")
      && selectedMatch pricing_id p.id then
    p.price
  else
    total_price

/-- Function `app.py:calculate_price`: start from `base_price` and run every pricing
rule through `priceStep` in order; `ValueError` on an unknown service id
becomes `Except.error`. -/
def calculate_price (db : DB) (service_id : Int)
    (bedroom_qty bath_qty hours : Int) (pricing_id : Option Int) :
    Except String Rat :=
  match get_service db service_id with
  | none => .error "Invalid service ID"
  | some service =>
      .ok (service.pricing.foldl
        (priceStep bedroom_qty bath_qty hours pricing_id) service.base_price)

/-- The `pricing_id` entry of the dict returned by `bookings.py:get_booking`:
normally the integer from the bookings row, but rewritten to the string
`"{original_pricing_id}_custom"` when the joined rule is of type `custom`. -/
inductive PricingIdVal where
  | intVal (n : Int)
  | strVal (s : String)
deriving DecidableEq, Repr

/-- The row produced by the three-way join in `bookings.py:get_booking`
(`b.*` plus the aliased service and pricing columns). -/
structure BookingView where
  id : Int
  service_id : Int
  pricing_id : PricingIdVal
  customer_name : String
  customer_email : String
  customer_phone : String
  date : String
  bedroom_qty : Int
  bath_qty : Int
  hours : Int
  notes : String
  total_price : Rat
  service_name : String
  pricing_label : String
  pricing_price : Rat
  rule_type : String
  original_pricing_id : Int
deriving DecidableEq, Repr

/-- Function `bookings.py:get_booking`: inner join of `bookings` with `services` on
`service_id` and with `service_pricing` on `pricing_id`, `fetchone` on
`b.id = ?`; a row is produced only when both joined rows exist.  The
`custom` rule type rewrites the `pricing_id` field to a string. -/
def get_booking (db : DB) (booking_id : Int) : Option BookingView :=
  match db.bookings.find? (fun b => b.id == booking_id) with
  | none => none
  | some b =>
      match db.services.find? (fun s => s.id == b.service_id),
            db.service_pricing.find? (fun sp => sp.id == b.pricing_id) with
      | some s, some sp =>
          some { id := b.id, service_id := b.service_id,
                 pricing_id :=
                   if sp.rule_type == "custom" then
                     .strVal (toString sp.id ++ "_custom")
                   else .intVal b.pricing_id,
                 customer_name := b.customer_name,
                 customer_email := b.customer_email,
                 customer_phone := b.customer_phone,
                 date := b.date, bedroom_qty := b.bedroom_qty,
                 bath_qty := b.bath_qty, hours := b.hours, notes := b.notes,
                 total_price := b.total_price, service_name := s.name,
                 pricing_label := sp.label, pricing_price := sp.price,
                 rule_type := sp.rule_type, original_pricing_id := sp.id }
      | _, _ => none

/-- Function `app.py:get_payment`: `SELECT * FROM payments WHERE booking_id = ?`,
`fetchone`. -/
def get_payment (db : DB) (booking_id : Int) : Option PaymentRow :=
  db.payments.find? (fun p => p.booking_id == booking_id)

/-- The form fields the payment route reads; `none` models an absent key
(`request.form.get` returns `None`). -/
structure PaymentForm where
  confirm : Option String
  street_address : Option String
  city : Option String
  province : Option String
  region : Option String
  payment_method : Option String
deriving DecidableEq, Repr

/-- The modal instruction selected by payment method (`app.py` lines
383–390); the route interpolates the amount into display text, which we keep
symbolic. -/
inductive Instruction where
  | cash (amount : Rat)
  | card
  | gcash (amount : Rat)
  | invalid
deriving DecidableEq, Repr

/-- Outcome of a POST to `/payment/<booking_id>`. -/
inductive PaymentResult where
  | notFound
  | redirectConfirmation
  | validationError (msg : String)
  | success (instr : Instruction)
deriving DecidableEq, Repr

/-- The POST branch of `app.py:payment`: look up the booking (404 when the
join fails), short-circuit to the confirmation redirect when
`confirm == 'yes'`, validate the trimmed address fields and the payment
method, then upsert the `payments` row — `UPDATE ... WHERE booking_id = ?`
when `fetchone` found a row, otherwise `INSERT` with `payment_status`
filled by the column default `'pending'`.  The update does not mention
`payment_status`. -/
def payment_post (db : DB) (booking_id : Int) (form : PaymentForm) :
    PaymentResult × DB :=
  match get_booking db booking_id with
  | none => (.notFound, db)
  | some booking =>
    if form.confirm == some "yes" then
      (.redirectConfirmation, db)
    else
      let street_address := pyStrip (form.street_address.getD "")
      let city := pyStrip (form.city.getD "")
      let province := pyStrip (form.province.getD "")
      let region := pyStrip (form.region.getD "")
      -- Python: `if not (street_address and city and province and region)`
      if street_address == "" || city == "" || province == "" || region == "" then
        (.validationError "Please fill in all address fields.", db)
      -- Python: `if not payment_method` (None and '' are falsy)
      else if form.payment_method.getD "" == "" then
        (.validationError "Please select a payment method.", db)
      else
        let pm := form.payment_method.getD ""
        let db' :=
          match db.payments.find? (fun p => p.booking_id == booking_id) with
          | some _ =>
              { db with payments := db.payments.map fun p =>
                  if p.booking_id == booking_id then
                    { p with street_address := street_address, city := city,
                             province := province, region := region,
                             payment_method := pm,
                             amount := booking.total_price }
                  else p }
          | none =>
              { db with
                payments := db.payments ++
                  [{ id := db.next_payment_id, booking_id := booking_id,
                     street_address := street_address, city := city,
                     province := province, region := region,
                     payment_method := pm, payment_status := "pending",
                     amount := booking.total_price }],
                next_payment_id := db.next_payment_id + 1 }
        let instruction :=
          if pm == "Cash" then Instruction.cash booking.total_price
          else if pm == "Card" then Instruction.card
          else if pm == "GCASH" then Instruction.gcash booking.total_price
          else Instruction.invalid
        (.success instruction, db')

/-- Function `app.py:confirmation`: a GET view — it only runs `get_booking` and
`get_payment` (two SELECTs) and renders; it is a pure function of the
store. -/
def confirmation (db : DB) (booking_id : Int) :
    Option (BookingView × Option PaymentRow) :=
  match get_booking db booking_id with
  | none => none
  | some booking => some (booking, get_payment db booking_id)

/-- The GET branch of `app.py:book`: 404 on unknown service; select the
service's pricing options; when there are none, insert the default
`flat_rate` / `Standard Service` rule at the service's base price
(`min_quantity`/`max_quantity` take the column default 0) and render that
single option.  The remainder of the route only classifies the options for
the template and performs no further writes. -/
def book_get (db : DB) (service_id : Int) :
    Option (DB × List PricingRule) :=
  match get_service db service_id with
  | none => none
  | some service =>
      let pricing_options := db.service_pricing.filter
        (fun p => p.service_id == service_id)
      if pricing_options.isEmpty then
        let newRule : PricingRule :=
          { id := db.next_pricing_id, service_id := service_id,
            rule_type := "flat_rate", label := "Standard Service",
            price := service.base_price, min_quantity := 0, max_quantity := 0 }
        some ({ db with
                service_pricing := db.service_pricing ++ [newRule],
                next_pricing_id := db.next_pricing_id + 1 },
              [newRule])
      else
        some (db, pricing_options)

/-- Statement `DELETE FROM payments WHERE booking_id = ?` (`app.py` line 644). -/
def delete_payments_for (db : DB) (booking_id : Int) : DB :=
  { db with payments := db.payments.filter (fun p => !(p.booking_id == booking_id)) }

/-- Statement `DELETE FROM booking_options WHERE booking_id = ?` (`app.py` line 645). -/
def delete_options_for (db : DB) (booking_id : Int) : DB :=
  { db with booking_options :=
      db.booking_options.filter (fun o => !(o.booking_id == booking_id)) }

/-- Statement `DELETE FROM bookings WHERE id = ?` (`app.py` line 647). -/
def delete_booking_row (db : DB) (booking_id : Int) : DB :=
  { db with bookings := db.bookings.filter (fun b => !(b.id == booking_id)) }

/-- Function `app.py:delete_booking`: the related payment and booking-option rows are
deleted first, then the booking row, in source order. -/
def delete_booking (db : DB) (booking_id : Int) : DB :=
  delete_booking_row (delete_options_for (delete_payments_for db booking_id)
    booking_id) booking_id

/-- The `for p in pricing` loop of `services.py:get_all_services`: append
each pricing rule to `service_map[p['service_id']]['pricing']`; a rule
whose `service_id` is not a key of the map raises `KeyError`, modelled as
`none`. -/
def addRules (acc : List Service) : List PricingRule → Option (List Service)
  | [] => some acc
  | p :: ps =>
      if acc.any (fun s => s.id == p.service_id) then
        addRules (acc.map fun s =>
          if s.id == p.service_id then { s with pricing := s.pricing ++ [p] }
          else s) ps
      else none

/-- Function `services.py:get_all_services`: every service with an initially empty
pricing list (the `services` ids are the map keys — `id` is the table's
primary key), then the rule-appending loop. -/
def get_all_services (db : DB) : Option (List Service) :=
  addRules
    (db.services.map fun s =>
      { id := s.id, name := s.name, description := s.description,
        base_price := s.base_price, image_url := s.image_url, pricing := [] })
    db.service_pricing

/-! ### Helper lemmas about `priceStep` -/

/-- A matching `flat_rate`/`flat_tier` rule overwrites any running total
with its own price. -/
theorem priceStep_flat_matching (bq baq h pid : Int) (t : Rat)
    (r : PricingRule)
    (hflat : r.rule_type = "flat_rate" ∨ r.rule_type = "flat_tier")
    (hpid : pid ≠ 0) (hid : r.id = pid) :
    priceStep bq baq h (some pid) t r = r.price := by
  rcases hflat with h1 | h1 <;>
    simp [priceStep, selectedMatch, h1, hid, hpid]

/-- With both quantities at most 1, zero hours and no selected pricing id,
one loop iteration leaves the total unchanged, whatever the rule. -/
theorem priceStep_neutral (bq baq : Int) (t : Rat) (r : PricingRule)
    (hbq : bq ≤ 1) (hbaq : baq ≤ 1) :
    priceStep bq baq 0 none t r = t := by
  have h1 : ¬ (1 : Int) < bq := by omega
  have h2 : ¬ (1 : Int) < baq := by omega
  simp [priceStep, selectedMatch, h1, h2]

/-- Folding neutral steps over any rule list is the identity. -/
theorem foldl_priceStep_neutral (bq baq : Int) (hbq : bq ≤ 1)
    (hbaq : baq ≤ 1) :
    ∀ (l : List PricingRule) (t : Rat),
      List.foldl (priceStep bq baq 0 none) t l = t
  | [], _ => rfl
  | r :: l, t => by
      rw [List.foldl_cons, priceStep_neutral bq baq t r hbq hbaq]
      exact foldl_priceStep_neutral bq baq hbq hbaq l t

/-! ### Claim theorems about `calculate_price` -/

/-- C1: For every service and every selected pricing id that matches a
`flat_rate` or `flat_tier` rule of that service, `calculate_price`
overwrites the running total with that rule's price at that rule's position
in the service's pricing-rule order: whatever the prefix (and hence the
base price, the quantities' earlier contributions, and any earlier matching
duplicate — last match wins), the fold continues from exactly the rule's
price. -/
theorem calculate_price_flat_overwrite
    (db : DB) (service_id : Int) (service : Service)
    (pre suf : List PricingRule) (r : PricingRule)
    (bedroom_qty bath_qty hours pid : Int)
    (hsvc : get_service db service_id = some service)
    (hsplit : service.pricing = pre ++ r :: suf)
    (hflat : r.rule_type = "flat_rate" ∨ r.rule_type = "flat_tier")
    (hpid : pid ≠ 0) (hid : r.id = pid) :
    calculate_price db service_id bedroom_qty bath_qty hours (some pid)
      = .ok (List.foldl (priceStep bedroom_qty bath_qty hours (some pid))
          r.price suf) := by
  unfold calculate_price
  rw [hsvc]
  simp only [hsplit, List.foldl_append, List.foldl_cons,
    priceStep_flat_matching bedroom_qty bath_qty hours pid _ r hflat hpid hid]

/-- Witness for C1: the spec's own test — two `flat_tier` rules (ids 10
price 800, 11 price 1200), `pricingId = 11`, base price 500, bedroom and
bath quantities well above 1 — yields exactly 1200. -/
theorem calculate_price_flat_overwrite_witness :
    calculate_price
      { services := [⟨1, "Deep Cleaning", none, 500, none⟩],
        service_pricing := [⟨10, 1, "flat_tier", "Small Home", 800, 0, 0⟩,
                            ⟨11, 1, "flat_tier", "Large Home", 1200, 0, 0⟩],
        bookings := [], booking_options := [], payments := [],
        next_pricing_id := 12, next_payment_id := 1 }
      1 5 4 0 (some 11) = .ok 1200 := by
  have h := calculate_price_flat_overwrite
    { services := [⟨1, "Deep Cleaning", none, 500, none⟩],
      service_pricing := [⟨10, 1, "flat_tier", "Small Home", 800, 0, 0⟩,
                          ⟨11, 1, "flat_tier", "Large Home", 1200, 0, 0⟩],
      bookings := [], booking_options := [], payments := [],
      next_pricing_id := 12, next_payment_id := 1 }
    1
    { id := 1, name := "Deep Cleaning", description := none,
      base_price := 500, image_url := none,
      pricing := [⟨10, 1, "flat_tier", "Small Home", 800, 0, 0⟩,
                  ⟨11, 1, "flat_tier", "Large Home", 1200, 0, 0⟩] }
    [⟨10, 1, "flat_tier", "Small Home", 800, 0, 0⟩] []
    ⟨11, 1, "flat_tier", "Large Home", 1200, 0, 0⟩
    5 4 0 11 rfl rfl (Or.inr rfl) (by decide) rfl
  simpa using h

/-- C4: For every service that exists, quantities at most 1 and zero
hours with no selected pricing id leave the result at exactly the service's
base price. -/
theorem calculate_price_base_price
    (db : DB) (service_id : Int) (service : Service)
    (bedroom_qty bath_qty : Int)
    (hsvc : get_service db service_id = some service)
    (hbq : bedroom_qty ≤ 1) (hbaq : bath_qty ≤ 1) :
    calculate_price db service_id bedroom_qty bath_qty 0 none
      = .ok service.base_price := by
  unfold calculate_price
  rw [hsvc]
  simp only [foldl_priceStep_neutral bedroom_qty bath_qty hbq hbaq]

/-- Witness for C4: a service with per_room, hourly and flat rules still
returns exactly its base price 700 at quantities 1, hours 0, no pricing
id. -/
theorem calculate_price_base_price_witness :
    calculate_price
      { services := [⟨3, "Domestic Cleaning", none, 700, none⟩],
        service_pricing := [⟨20, 3, "per_room", "Extra Bedroom", 50, 0, 0⟩,
                            ⟨21, 3, "per_room", "Extra Bathroom", 60, 0, 0⟩,
                            ⟨22, 3, "hourly", "Per Hour", 30, 0, 0⟩,
                            ⟨23, 3, "flat_rate", "Standard Service", 700, 0, 0⟩],
        bookings := [], booking_options := [], payments := [],
        next_pricing_id := 24, next_payment_id := 1 }
      3 1 1 0 none = .ok 700 := by
  exact calculate_price_base_price _ 3
    { id := 3, name := "Domestic Cleaning", description := none,
      base_price := 700, image_url := none,
      pricing := [⟨20, 3, "per_room", "Extra Bedroom", 50, 0, 0⟩,
                  ⟨21, 3, "per_room", "Extra Bathroom", 60, 0, 0⟩,
                  ⟨22, 3, "hourly", "Per Hour", 30, 0, 0⟩,
                  ⟨23, 3, "flat_rate", "Standard Service", 700, 0, 0⟩] }
    1 1 rfl (by decide) (by decide)

/-- C5: A `per_room` rule contributes `price * (bedroomQty − 1)` when
its label contains "Bedroom" and `bedroomQty > 1` (the first unit is
covered by the base price), and symmetrically `price * (bathQty − 1)` for
labels containing "Bathroom"; each contribution is zero when its condition
fails, and a label containing both substrings contributes both. -/
theorem priceStep_per_room_incremental
    (bedroom_qty bath_qty hours : Int) (pricing_id : Option Int)
    (t : Rat) (r : PricingRule) (hr : r.rule_type = "per_room") :
    priceStep bedroom_qty bath_qty hours pricing_id t r =
      t + (if strContains r.label "Bedroom" && bedroom_qty > 1 then
             r.price * ((bedroom_qty - 1 : Int) : Rat) else 0)
        + (if strContains r.label "Bathroom" && bath_qty > 1 then
             r.price * ((bath_qty - 1 : Int) : Rat) else 0) := by
  cases hc1 : (strContains r.label "Bedroom" && decide (1 < bedroom_qty)) <;>
  cases hc2 : (strContains r.label "Bathroom" && decide (1 < bath_qty)) <;>
    simp [priceStep, hr, hc1, hc2]

/-- Witness for C5: the spec's own test — a "Bedroom" `per_room` rule
priced 50 at `bedroomQty = 3` adds exactly 100 (never 150) to a running
total of 200. -/
theorem priceStep_per_room_incremental_witness :
    priceStep 3 1 0 none 200 ⟨20, 3, "per_room", "Extra Bedroom", 50, 0, 0⟩
      = 300 := by
  have h := priceStep_per_room_incremental 3 1 0 none 200
    ⟨20, 3, "per_room", "Extra Bedroom", 50, 0, 0⟩ rfl
  rw [h]
  norm_num [strContains, hasSubList, subAt]

/-! ### Claim theorems about the booking page, deletion and confirmation -/

/-- Rows kept by a delete (`filter` on the negated key predicate) never
match the key predicate again. -/
theorem filter_not_filter {α : Type} (l : List α) (p q : α → Bool)
    (hpq : ∀ a, q a = true → p a = true) :
    (l.filter fun a => !(p a)).filter q = [] := by
  induction l with
  | nil => rfl
  | cons a l ih =>
      by_cases h : p a = true
      · simp [List.filter, h, ih]
      · have hq : ¬ q a = true := fun hqa => h (hpq a hqa)
        simp [List.filter, h, hq, ih]

/-- C3: On a service with zero pricing rules, the first rendering of
the booking page inserts exactly one rule — `flat_rate`, "Standard
Service", priced at the service's base price — and a second rendering
returns the same store unchanged (no further insert). -/
theorem book_get_creates_default_rule
    (db : DB) (service_id : Int) (service : Service)
    (hsvc : get_service db service_id = some service)
    (hempty : db.service_pricing.filter (fun p => p.service_id == service_id)
      = []) :
    book_get db service_id =
      some ({ db with
              service_pricing := db.service_pricing ++
                [{ id := db.next_pricing_id, service_id := service_id,
                   rule_type := "flat_rate", label := "Standard Service",
                   price := service.base_price, min_quantity := 0,
                   max_quantity := 0 }],
              next_pricing_id := db.next_pricing_id + 1 },
            [{ id := db.next_pricing_id, service_id := service_id,
               rule_type := "flat_rate", label := "Standard Service",
               price := service.base_price, min_quantity := 0,
               max_quantity := 0 }]) ∧
    book_get { db with
               service_pricing := db.service_pricing ++
                 [{ id := db.next_pricing_id, service_id := service_id,
                    rule_type := "flat_rate", label := "Standard Service",
                    price := service.base_price, min_quantity := 0,
                    max_quantity := 0 }],
               next_pricing_id := db.next_pricing_id + 1 } service_id =
      some ({ db with
              service_pricing := db.service_pricing ++
                [{ id := db.next_pricing_id, service_id := service_id,
                   rule_type := "flat_rate", label := "Standard Service",
                   price := service.base_price, min_quantity := 0,
                   max_quantity := 0 }],
              next_pricing_id := db.next_pricing_id + 1 },
            [{ id := db.next_pricing_id, service_id := service_id,
               rule_type := "flat_rate", label := "Standard Service",
               price := service.base_price, min_quantity := 0,
               max_quantity := 0 }]) := by
  obtain ⟨srow, hfind, hserv⟩ :
      ∃ srow, db.services.find? (fun s => s.id == service_id) = some srow ∧
        service = { id := srow.id, name := srow.name,
                    description := srow.description,
                    base_price := srow.base_price, image_url := srow.image_url,
                    pricing := db.service_pricing.filter
                      (fun p => p.service_id == service_id) } := by
    unfold get_service at hsvc
    cases hfind : db.services.find? (fun s => s.id == service_id) with
    | none => rw [hfind] at hsvc; cases hsvc
    | some srow =>
        rw [hfind] at hsvc
        exact ⟨srow, rfl, (Option.some_injective _ hsvc).symm⟩
  constructor
  · simp only [book_get, hsvc, hempty, List.isEmpty_nil, if_true]
  · simp only [book_get, get_service, hfind, List.filter_append, hempty,
      List.nil_append, List.filter, beq_self_eq_true, List.isEmpty_cons]
    rfl

/-- Witness for C3: a freshly added service (base price 900, no rules)
gains exactly the default rule on first render; rendering again changes
nothing. -/
theorem book_get_creates_default_rule_witness :
    book_get
      { services := [⟨4, "Window Cleaning", none, 900, none⟩],
        service_pricing := [], bookings := [], booking_options := [],
        payments := [], next_pricing_id := 30, next_payment_id := 1 } 4 =
      some ({ services := [⟨4, "Window Cleaning", none, 900, none⟩],
              service_pricing := [⟨30, 4, "flat_rate", "Standard Service",
                900, 0, 0⟩],
              bookings := [], booking_options := [], payments := [],
              next_pricing_id := 31, next_payment_id := 1 },
            [⟨30, 4, "flat_rate", "Standard Service", 900, 0, 0⟩]) ∧
    book_get
      { services := [⟨4, "Window Cleaning", none, 900, none⟩],
        service_pricing := [⟨30, 4, "flat_rate", "Standard Service",
          900, 0, 0⟩],
        bookings := [], booking_options := [], payments := [],
        next_pricing_id := 31, next_payment_id := 1 } 4 =
      some ({ services := [⟨4, "Window Cleaning", none, 900, none⟩],
              service_pricing := [⟨30, 4, "flat_rate", "Standard Service",
                900, 0, 0⟩],
              bookings := [], booking_options := [], payments := [],
              next_pricing_id := 31, next_payment_id := 1 },
            [⟨30, 4, "flat_rate", "Standard Service", 900, 0, 0⟩]) := by
  have h := book_get_creates_default_rule
    { services := [⟨4, "Window Cleaning", none, 900, none⟩],
      service_pricing := [], bookings := [], booking_options := [],
      payments := [], next_pricing_id := 30, next_payment_id := 1 } 4
    { id := 4, name := "Window Cleaning", description := none,
      base_price := 900, image_url := none, pricing := [] }
    rfl rfl
  exact h

/-- C7: `delete_booking` removes the payment and booking-option rows
before the booking row (the composition below is the source order), and
afterwards the booking id matches no row in any of the three tables; in
particular the booking and payment lookups both report not-found. -/
theorem delete_booking_removes_all (db : DB) (booking_id : Int) :
    delete_booking db booking_id =
      delete_booking_row (delete_options_for
        (delete_payments_for db booking_id) booking_id) booking_id ∧
    (delete_booking db booking_id).bookings.filter
      (fun b => b.id == booking_id) = [] ∧
    (delete_booking db booking_id).payments.filter
      (fun p => p.booking_id == booking_id) = [] ∧
    (delete_booking db booking_id).booking_options.filter
      (fun o => o.booking_id == booking_id) = [] ∧
    get_booking (delete_booking db booking_id) booking_id = none ∧
    get_payment (delete_booking db booking_id) booking_id = none := by
  refine ⟨rfl, ?_, ?_, ?_, ?_, ?_⟩
  · exact filter_not_filter db.bookings _ _ (fun a h => h)
  · exact filter_not_filter db.payments _ _ (fun a h => h)
  · exact filter_not_filter db.booking_options _ _ (fun a h => h)
  · unfold get_booking
    have hfind : ((delete_booking db booking_id).bookings.find?
        (fun b => b.id == booking_id)) = none := by
      rw [List.find?_eq_none]
      intro x hx
      have := List.of_mem_filter hx
      simpa using this
    rw [hfind]
  · unfold get_payment
    rw [List.find?_eq_none]
    intro x hx
    have := List.of_mem_filter hx
    simpa using this

/-- C8: A POST to the payment route with `confirm = yes` is a pure
navigation action: the store is returned unchanged, whatever the booking
id and the other form fields (and the confirmation view itself is a pure
function of the store by construction — `confirmation` performs only the
two lookups). -/
theorem payment_post_confirm_pure (db : DB) (booking_id : Int)
    (form : PaymentForm) (hconfirm : form.confirm = some "yes") :
    (payment_post db booking_id form).2 = db := by
  unfold payment_post
  cases hbk : get_booking db booking_id with
  | none => rfl
  | some b => simp [hconfirm]

/-- Witness for C8: a store holding a real booking is untouched by the
confirm-yes POST. -/
theorem payment_post_confirm_pure_witness :
    (payment_post
      { services := [⟨1, "Regular Cleaning", none, 500, none⟩],
        service_pricing := [⟨7, 1, "flat_rate", "Standard Service", 500, 0, 0⟩],
        bookings := [⟨42, 1, 7, "Ana Cruz", "ana@example.com", "0917",
          "2026-10-20", 2, 1, 0, "", 500⟩],
        booking_options := [], payments := [],
        next_pricing_id := 8, next_payment_id := 1 } 42
      { confirm := some "yes", street_address := none, city := none,
        province := none, region := none, payment_method := none }).2 =
      { services := [⟨1, "Regular Cleaning", none, 500, none⟩],
        service_pricing := [⟨7, 1, "flat_rate", "Standard Service", 500, 0, 0⟩],
        bookings := [⟨42, 1, 7, "Ana Cruz", "ana@example.com", "0917",
          "2026-10-20", 2, 1, 0, "", 500⟩],
        booking_options := [], payments := [],
        next_pricing_id := 8, next_payment_id := 1 } :=
  payment_post_confirm_pure _ 42 _ rfl

/-! ### Claim theorems about the lookups -/

/-- C9: `get_booking` yields `None` exactly when the booking row is
absent, **or** the row exists but its `service_id` has no matching
`services` row, **or** its `pricing_id` has no matching `service_pricing`
row — the inner joins drop the row in the latter two cases as well (the
payment and confirmation routes then answer 404). -/
theorem get_booking_none_iff (db : DB) (booking_id : Int) :
    get_booking db booking_id = none ↔
      db.bookings.find? (fun r => r.id == booking_id) = none ∨
      ∃ b, db.bookings.find? (fun r => r.id == booking_id) = some b ∧
        (db.services.find? (fun s => s.id == b.service_id) = none ∨
         db.service_pricing.find? (fun sp => sp.id == b.pricing_id) = none) := by
  cases hb : db.bookings.find? (fun r => r.id == booking_id) with
  | none => simp [get_booking, hb]
  | some b =>
      cases hs : db.services.find? (fun s => s.id == b.service_id) with
      | none =>
          cases hsp : db.service_pricing.find?
              (fun sp => sp.id == b.pricing_id) <;>
            simp [get_booking, hb, hs, hsp] <;>
            exact Or.inl fun x hx => by
              simpa using List.find?_eq_none.mp hs x hx
      | some s =>
          cases hsp : db.service_pricing.find?
              (fun sp => sp.id == b.pricing_id) with
          | none =>
              simp [get_booking, hb, hs, hsp]
              exact Or.inr fun x hx => by
                simpa using List.find?_eq_none.mp hsp x hx
          | some sp =>
              simp [get_booking, hb, hs, hsp]
              constructor
              · exact ⟨s, List.mem_of_find?_eq_some hs,
                  by simpa using List.find?_some hs⟩
              · exact ⟨sp, List.mem_of_find?_eq_some hsp,
                  by simpa using List.find?_some hsp⟩

/-- Appending a rule to the matching services leaves the key set of the
accumulator unchanged. -/
theorem any_id_map_append (acc : List Service) (p : PricingRule) (v : Int) :
    ((acc.map fun s =>
        if s.id == p.service_id then { s with pricing := s.pricing ++ [p] }
        else s).any fun s => s.id == v) = acc.any (fun s => s.id == v) := by
  induction acc with
  | nil => rfl
  | cons a l ih =>
      rw [List.map_cons, List.any_cons, List.any_cons, ih]
      by_cases h : (a.id == p.service_id) = true
      · rw [if_pos h]
      · rw [if_neg h]

/-- The rule-appending loop fails exactly when some rule's `service_id`
matches no accumulator key. -/
theorem addRules_eq_none_iff :
    ∀ (rules : List PricingRule) (acc : List Service),
      addRules acc rules = none ↔
        ∃ p ∈ rules, acc.any (fun s => s.id == p.service_id) = false
  | [], acc => by simp [addRules]
  | p :: ps, acc => by
      unfold addRules
      by_cases h : acc.any (fun s => s.id == p.service_id) = true
      · rw [if_pos h, addRules_eq_none_iff ps]
        constructor
        · rintro ⟨q, hq, hqa⟩
          exact ⟨q, List.mem_cons_of_mem _ hq,
            by rwa [any_id_map_append] at hqa⟩
        · rintro ⟨q, hq, hqa⟩
          rcases List.mem_cons.mp hq with rfl | hq'
          · rw [h] at hqa; cases hqa
          · exact ⟨q, hq', by rwa [any_id_map_append]⟩
      · rw [if_neg h]
        refine ⟨fun _ => ⟨p, List.mem_cons_self p ps, ?_⟩, fun _ => rfl⟩
        simpa using h

/-- C10: `get_all_services` succeeds exactly when every
`service_pricing` row's `service_id` matches some `services` row; an
orphan rule makes it fail (the Python `KeyError`) rather than be
skipped. -/
theorem get_all_services_none_iff (db : DB) :
    get_all_services db = none ↔
      ∃ p ∈ db.service_pricing, ∀ s ∈ db.services, ¬ s.id = p.service_id := by
  unfold get_all_services
  rw [addRules_eq_none_iff]
  constructor
  · rintro ⟨p, hp, hany⟩
    refine ⟨p, hp, fun s hs heq => ?_⟩
    rw [List.any_eq_false] at hany
    exact hany _ (List.mem_map_of_mem _ hs) (by simpa using heq)
  · rintro ⟨p, hp, hall⟩
    refine ⟨p, hp, ?_⟩
    rw [List.any_eq_false]
    rintro x hx
    rcases List.mem_map.mp hx with ⟨s, hs, rfl⟩
    simpa using hall s hs

/-! ### Claim theorems about the payment upsert -/

/-- C6: When any trimmed address field is blank, or the payment method
is absent/empty, the payment POST returns a validation failure and the
whole store — in particular the `payments` table — is returned exactly as
it was: no row is inserted or updated. -/
theorem payment_post_validation_no_write
    (db : DB) (booking_id : Int) (form : PaymentForm) (b : BookingView)
    (hbk : get_booking db booking_id = some b)
    (hconfirm : ¬ form.confirm = some "yes")
    (hinvalid : pyStrip (form.street_address.getD "") = ""
      ∨ pyStrip (form.city.getD "") = ""
      ∨ pyStrip (form.province.getD "") = ""
      ∨ pyStrip (form.region.getD "") = ""
      ∨ form.payment_method.getD "" = "") :
    ∃ msg, payment_post db booking_id form =
      (PaymentResult.validationError msg, db) := by
  have hc : (form.confirm == some "yes") = false := by simpa using hconfirm
  simp only [payment_post, hbk, hc, Bool.false_eq_true, if_false]
  split
  next h1 => exact ⟨_, rfl⟩
  next h1 =>
    split
    next h2 => exact ⟨_, rfl⟩
    next h2 =>
      exfalso
      rcases hinvalid with h | h | h | h | h
      · exact h1 (by simp [h])
      · exact h1 (by simp [h])
      · exact h1 (by simp [h])
      · exact h1 (by simp [h])
      · exact h2 (by simp [h])

/-- Witness for C6: a blank (whitespace-only) city field is rejected and
the store comes back untouched. -/
theorem payment_post_validation_no_write_witness :
    ∃ msg, payment_post
      { services := [⟨1, "Regular Cleaning", none, 500, none⟩],
        service_pricing := [⟨7, 1, "flat_rate", "Standard Service", 500, 0, 0⟩],
        bookings := [⟨42, 1, 7, "Ana Cruz", "ana@example.com", "0917",
          "2026-10-20", 2, 1, 0, "", 500⟩],
        booking_options := [], payments := [],
        next_pricing_id := 8, next_payment_id := 1 } 42
      { confirm := none, street_address := some "12 Rizal St",
        city := some "   ", province := some "Cavite",
        region := some "IV-A", payment_method := some "Cash" } =
      (PaymentResult.validationError msg,
        { services := [⟨1, "Regular Cleaning", none, 500, none⟩],
          service_pricing := [⟨7, 1, "flat_rate", "Standard Service",
            500, 0, 0⟩],
          bookings := [⟨42, 1, 7, "Ana Cruz", "ana@example.com", "0917",
            "2026-10-20", 2, 1, 0, "", 500⟩],
          booking_options := [], payments := [],
          next_pricing_id := 8, next_payment_id := 1 }) :=
  payment_post_validation_no_write _ 42 _
    { id := 42, service_id := 1, pricing_id := .intVal 7,
      customer_name := "Ana Cruz", customer_email := "ana@example.com",
      customer_phone := "0917", date := "2026-10-20", bedroom_qty := 2,
      bath_qty := 1, hours := 0, notes := "", total_price := 500,
      service_name := "Regular Cleaning",
      pricing_label := "Standard Service", pricing_price := 500,
      rule_type := "flat_rate", original_pricing_id := 7 }
    rfl (fun h => nomatch h) (Or.inr (Or.inl rfl))

/-- Lookup `find?` skips a prefix in which nothing matches. -/
theorem find?_append_of_none {α : Type} (l1 l2 : List α) (p : α → Bool)
    (h : l1.find? p = none) : (l1 ++ l2).find? p = l2.find? p := by
  induction l1 with
  | nil => rfl
  | cons a l ih =>
      cases hpa : p a with
      | false =>
          simp only [List.cons_append, List.find?_cons, hpa] at h ⊢
          exact ih h
      | true =>
          simp only [List.find?_cons, hpa] at h
          cases h

/-- A successful payment POST that finds no existing row appends exactly
one new `payments` row, with `payment_status` filled by the column default
`'pending'` and `amount` copied from the booking's `total_price`. -/
theorem payment_post_insert_state
    (db : DB) (booking_id : Int) (f : PaymentForm) (b : BookingView)
    (hbk : get_booking db booking_id = some b)
    (hcf : ¬ f.confirm = some "yes")
    (h1 : pyStrip (f.street_address.getD "") ≠ "")
    (h2 : pyStrip (f.city.getD "") ≠ "")
    (h3 : pyStrip (f.province.getD "") ≠ "")
    (h4 : pyStrip (f.region.getD "") ≠ "")
    (h5 : f.payment_method.getD "" ≠ "")
    (hnone : db.payments.find? (fun p => p.booking_id == booking_id)
      = none) :
    (payment_post db booking_id f).2 =
      { db with
        payments := db.payments ++
          [{ id := db.next_payment_id, booking_id := booking_id,
             street_address := pyStrip (f.street_address.getD ""),
             city := pyStrip (f.city.getD ""),
             province := pyStrip (f.province.getD ""),
             region := pyStrip (f.region.getD ""),
             payment_method := f.payment_method.getD "",
             payment_status := "pending", amount := b.total_price }],
        next_payment_id := db.next_payment_id + 1 } := by
  have hc : (f.confirm == some "yes") = false := by simpa using hcf
  have e1 : (pyStrip (f.street_address.getD "") == "") = false :=
    beq_eq_false_iff_ne.mpr h1
  have e2 : (pyStrip (f.city.getD "") == "") = false :=
    beq_eq_false_iff_ne.mpr h2
  have e3 : (pyStrip (f.province.getD "") == "") = false :=
    beq_eq_false_iff_ne.mpr h3
  have e4 : (pyStrip (f.region.getD "") == "") = false :=
    beq_eq_false_iff_ne.mpr h4
  have e5 : (f.payment_method.getD "" == "") = false :=
    beq_eq_false_iff_ne.mpr h5
  simp only [payment_post, hbk, hc, e1, e2, e3, e4, e5, hnone,
    Bool.or_self, Bool.or_false, Bool.false_eq_true, if_false]

/-- A successful payment POST that finds an existing row rewrites, in
place, every `payments` row of that booking — address fields, method and
amount; `payment_status` (and `id`) are not mentioned by the `UPDATE` and
stay as they were. -/
theorem payment_post_update_state
    (db : DB) (booking_id : Int) (f : PaymentForm) (b : BookingView)
    (q : PaymentRow)
    (hbk : get_booking db booking_id = some b)
    (hcf : ¬ f.confirm = some "yes")
    (h1 : pyStrip (f.street_address.getD "") ≠ "")
    (h2 : pyStrip (f.city.getD "") ≠ "")
    (h3 : pyStrip (f.province.getD "") ≠ "")
    (h4 : pyStrip (f.region.getD "") ≠ "")
    (h5 : f.payment_method.getD "" ≠ "")
    (hsome : db.payments.find? (fun p => p.booking_id == booking_id)
      = some q) :
    (payment_post db booking_id f).2 =
      { db with
        payments := db.payments.map fun p =>
          if p.booking_id == booking_id then
            { p with street_address := pyStrip (f.street_address.getD ""),
                     city := pyStrip (f.city.getD ""),
                     province := pyStrip (f.province.getD ""),
                     region := pyStrip (f.region.getD ""),
                     payment_method := f.payment_method.getD "",
                     amount := b.total_price }
          else p } := by
  have hc : (f.confirm == some "yes") = false := by simpa using hcf
  have e1 : (pyStrip (f.street_address.getD "") == "") = false :=
    beq_eq_false_iff_ne.mpr h1
  have e2 : (pyStrip (f.city.getD "") == "") = false :=
    beq_eq_false_iff_ne.mpr h2
  have e3 : (pyStrip (f.province.getD "") == "") = false :=
    beq_eq_false_iff_ne.mpr h3
  have e4 : (pyStrip (f.region.getD "") == "") = false :=
    beq_eq_false_iff_ne.mpr h4
  have e5 : (f.payment_method.getD "" == "") = false :=
    beq_eq_false_iff_ne.mpr h5
  simp only [payment_post, hbk, hc, e1, e2, e3, e4, e5, hsome,
    Bool.or_self, Bool.or_false, Bool.false_eq_true, if_false]

/-- C2: Submitting valid payment details twice for the same booking
never creates two `payments` rows: starting with no row for the booking,
the first POST appends exactly one row (`payment_status = "pending"`,
`amount = booking.total_price`), and the second POST leaves the table at
exactly one row for that booking — same `id`, same position, same
`payment_status` (the update does not touch it), address/method replaced
by the second form's values and `amount` again taken from the booking. -/
theorem payment_post_upsert_twice
    (db : DB) (booking_id : Int) (f1 f2 : PaymentForm) (b : BookingView)
    (hbk : get_booking db booking_id = some b)
    (hc1 : ¬ f1.confirm = some "yes") (hc2 : ¬ f2.confirm = some "yes")
    (hv1 : pyStrip (f1.street_address.getD "") ≠ ""
      ∧ pyStrip (f1.city.getD "") ≠ ""
      ∧ pyStrip (f1.province.getD "") ≠ ""
      ∧ pyStrip (f1.region.getD "") ≠ ""
      ∧ f1.payment_method.getD "" ≠ "")
    (hv2 : pyStrip (f2.street_address.getD "") ≠ ""
      ∧ pyStrip (f2.city.getD "") ≠ ""
      ∧ pyStrip (f2.province.getD "") ≠ ""
      ∧ pyStrip (f2.region.getD "") ≠ ""
      ∧ f2.payment_method.getD "" ≠ "")
    (hnone : db.payments.find? (fun p => p.booking_id == booking_id)
      = none) :
    (payment_post db booking_id f1).2 =
      { db with
        payments := db.payments ++
          [{ id := db.next_payment_id, booking_id := booking_id,
             street_address := pyStrip (f1.street_address.getD ""),
             city := pyStrip (f1.city.getD ""),
             province := pyStrip (f1.province.getD ""),
             region := pyStrip (f1.region.getD ""),
             payment_method := f1.payment_method.getD "",
             payment_status := "pending", amount := b.total_price }],
        next_payment_id := db.next_payment_id + 1 } ∧
    (payment_post (payment_post db booking_id f1).2 booking_id f2).2 =
      { db with
        payments := db.payments ++
          [{ id := db.next_payment_id, booking_id := booking_id,
             street_address := pyStrip (f2.street_address.getD ""),
             city := pyStrip (f2.city.getD ""),
             province := pyStrip (f2.province.getD ""),
             region := pyStrip (f2.region.getD ""),
             payment_method := f2.payment_method.getD "",
             payment_status := "pending", amount := b.total_price }],
        next_payment_id := db.next_payment_id + 1 } := by
  obtain ⟨h11, h12, h13, h14, h15⟩ := hv1
  obtain ⟨h21, h22, h23, h24, h25⟩ := hv2
  have hins := payment_post_insert_state db booking_id f1 b hbk hc1
    h11 h12 h13 h14 h15 hnone
  refine ⟨hins, ?_⟩
  rw [hins]
  have hbk1 : get_booking
      { db with
        payments := db.payments ++
          [{ id := db.next_payment_id, booking_id := booking_id,
             street_address := pyStrip (f1.street_address.getD ""),
             city := pyStrip (f1.city.getD ""),
             province := pyStrip (f1.province.getD ""),
             region := pyStrip (f1.region.getD ""),
             payment_method := f1.payment_method.getD "",
             payment_status := "pending", amount := b.total_price }],
        next_payment_id := db.next_payment_id + 1 } booking_id
      = some b := hbk
  have hfind1 : ({ db with
        payments := db.payments ++
          [{ id := db.next_payment_id, booking_id := booking_id,
             street_address := pyStrip (f1.street_address.getD ""),
             city := pyStrip (f1.city.getD ""),
             province := pyStrip (f1.province.getD ""),
             region := pyStrip (f1.region.getD ""),
             payment_method := f1.payment_method.getD "",
             payment_status := "pending", amount := b.total_price }],
        next_payment_id := db.next_payment_id + 1 } : DB).payments.find?
      (fun p => p.booking_id == booking_id)
      = some { id := db.next_payment_id, booking_id := booking_id,
               street_address := pyStrip (f1.street_address.getD ""),
               city := pyStrip (f1.city.getD ""),
               province := pyStrip (f1.province.getD ""),
               region := pyStrip (f1.region.getD ""),
               payment_method := f1.payment_method.getD "",
               payment_status := "pending", amount := b.total_price } := by
    show (db.payments ++ _).find? _ = _
    rw [find?_append_of_none _ _ _ hnone]
    simp [List.find?_cons]
  have hupd := payment_post_update_state _ booking_id f2 b _ hbk1 hc2
    h21 h22 h23 h24 h25 hfind1
  rw [hupd]
  have hall : ∀ p ∈ db.payments, ¬ (p.booking_id == booking_id) = true :=
    List.find?_eq_none.mp hnone
  have hmap : List.map (fun p : PaymentRow =>
        if p.booking_id == booking_id then
          { p with street_address := pyStrip (f2.street_address.getD ""),
                   city := pyStrip (f2.city.getD ""),
                   province := pyStrip (f2.province.getD ""),
                   region := pyStrip (f2.region.getD ""),
                   payment_method := f2.payment_method.getD "",
                   amount := b.total_price }
        else p)
      (db.payments ++
        [{ id := db.next_payment_id, booking_id := booking_id,
           street_address := pyStrip (f1.street_address.getD ""),
           city := pyStrip (f1.city.getD ""),
           province := pyStrip (f1.province.getD ""),
           region := pyStrip (f1.region.getD ""),
           payment_method := f1.payment_method.getD "",
           payment_status := "pending",
           amount := b.total_price }])
      = db.payments ++
        [{ id := db.next_payment_id, booking_id := booking_id,
           street_address := pyStrip (f2.street_address.getD ""),
           city := pyStrip (f2.city.getD ""),
           province := pyStrip (f2.province.getD ""),
           region := pyStrip (f2.region.getD ""),
           payment_method := f2.payment_method.getD "",
           payment_status := "pending", amount := b.total_price }] := by
    rw [List.map_append]
    congr 1
    · have hid : db.payments.map (fun p =>
          if p.booking_id == booking_id then
            { p with street_address := pyStrip (f2.street_address.getD ""),
                     city := pyStrip (f2.city.getD ""),
                     province := pyStrip (f2.province.getD ""),
                     region := pyStrip (f2.region.getD ""),
                     payment_method := f2.payment_method.getD "",
                     amount := b.total_price }
          else p) = db.payments.map id := by
        refine List.map_congr_left fun p hp => ?_
        simp only [id_eq]
        rw [if_neg fun hcontra => hall p hp hcontra]
      rw [hid, List.map_id]
    · simp
  rw [show ({ db with
        payments := db.payments ++
          [{ id := db.next_payment_id, booking_id := booking_id,
             street_address := pyStrip (f1.street_address.getD ""),
             city := pyStrip (f1.city.getD ""),
             province := pyStrip (f1.province.getD ""),
             region := pyStrip (f1.region.getD ""),
             payment_method := f1.payment_method.getD "",
             payment_status := "pending", amount := b.total_price }],
        next_payment_id := db.next_payment_id + 1 } : DB).payments
      = db.payments ++
          [{ id := db.next_payment_id, booking_id := booking_id,
             street_address := pyStrip (f1.street_address.getD ""),
             city := pyStrip (f1.city.getD ""),
             province := pyStrip (f1.province.getD ""),
             region := pyStrip (f1.region.getD ""),
             payment_method := f1.payment_method.getD "",
             payment_status := "pending", amount := b.total_price }]
      from rfl, hmap]

/-- Witness for C2: booking 42 (total 500), first submission pays Cash from
"12 Rizal St, Bacoor", second resubmits GCASH from "7 Mabini St, Imus" — one
row throughout, same row id 5, status still "pending", amount still 500. -/
theorem payment_post_upsert_twice_witness :
    (payment_post
      { services := [⟨1, "Regular Cleaning", none, 500, none⟩],
        service_pricing := [⟨7, 1, "flat_rate", "Standard Service", 500, 0, 0⟩],
        bookings := [⟨42, 1, 7, "Ana Cruz", "ana@example.com", "0917",
          "2026-10-20", 2, 1, 0, "", 500⟩],
        booking_options := [], payments := [],
        next_pricing_id := 8, next_payment_id := 5 } 42
      { confirm := none, street_address := some "12 Rizal St",
        city := some "Bacoor", province := some "Cavite",
        region := some "IV-A", payment_method := some "Cash" }).2 =
      { services := [⟨1, "Regular Cleaning", none, 500, none⟩],
        service_pricing := [⟨7, 1, "flat_rate", "Standard Service", 500, 0, 0⟩],
        bookings := [⟨42, 1, 7, "Ana Cruz", "ana@example.com", "0917",
          "2026-10-20", 2, 1, 0, "", 500⟩],
        booking_options := [],
        payments := [⟨5, 42, "12 Rizal St", "Bacoor", "Cavite", "IV-A",
          "Cash", "pending", 500⟩],
        next_pricing_id := 8, next_payment_id := 6 } ∧
    (payment_post
      (payment_post
        { services := [⟨1, "Regular Cleaning", none, 500, none⟩],
          service_pricing := [⟨7, 1, "flat_rate", "Standard Service",
            500, 0, 0⟩],
          bookings := [⟨42, 1, 7, "Ana Cruz", "ana@example.com", "0917",
            "2026-10-20", 2, 1, 0, "", 500⟩],
          booking_options := [], payments := [],
          next_pricing_id := 8, next_payment_id := 5 } 42
        { confirm := none, street_address := some "12 Rizal St",
          city := some "Bacoor", province := some "Cavite",
          region := some "IV-A", payment_method := some "Cash" }).2 42
      { confirm := none, street_address := some "7 Mabini St",
        city := some "Imus", province := some "Cavite",
        region := some "IV-A", payment_method := some "GCASH" }).2 =
      { services := [⟨1, "Regular Cleaning", none, 500, none⟩],
        service_pricing := [⟨7, 1, "flat_rate", "Standard Service", 500, 0, 0⟩],
        bookings := [⟨42, 1, 7, "Ana Cruz", "ana@example.com", "0917",
          "2026-10-20", 2, 1, 0, "", 500⟩],
        booking_options := [],
        payments := [⟨5, 42, "7 Mabini St", "Imus", "Cavite", "IV-A",
          "GCASH", "pending", 500⟩],
        next_pricing_id := 8, next_payment_id := 6 } :=
  payment_post_upsert_twice
    { services := [⟨1, "Regular Cleaning", none, 500, none⟩],
      service_pricing := [⟨7, 1, "flat_rate", "Standard Service", 500, 0, 0⟩],
      bookings := [⟨42, 1, 7, "Ana Cruz", "ana@example.com", "0917",
        "2026-10-20", 2, 1, 0, "", 500⟩],
      booking_options := [], payments := [],
      next_pricing_id := 8, next_payment_id := 5 } 42
    { confirm := none, street_address := some "12 Rizal St",
      city := some "Bacoor", province := some "Cavite",
      region := some "IV-A", payment_method := some "Cash" }
    { confirm := none, street_address := some "7 Mabini St",
      city := some "Imus", province := some "Cavite",
      region := some "IV-A", payment_method := some "GCASH" }
    { id := 42, service_id := 1, pricing_id := .intVal 7,
      customer_name := "Ana Cruz", customer_email := "ana@example.com",
      customer_phone := "0917", date := "2026-10-20", bedroom_qty := 2,
      bath_qty := 1, hours := 0, notes := "", total_price := 500,
      service_name := "Regular Cleaning",
      pricing_label := "Standard Service", pricing_price := 500,
      rule_type := "flat_rate", original_pricing_id := 7 }
    rfl (fun h => nomatch h) (fun h => nomatch h)
    ⟨by decide, by decide, by decide, by decide, by decide⟩
    ⟨by decide, by decide, by decide, by decide, by decide⟩
    rfl

